import Mathlib

/-!
Shallow embedding of `scripts/generate-test-pptx.py`, a one-shot generator of
seven PPTX test fixtures built on the python-pptx library.

The script only constructs in-memory document trees (slides, auto shapes,
text boxes, tables) and saves each one to a file.  The embedding models:

* the document tree the python-pptx calls build (`Presentation`, `Slide`,
  `Shape`, `TextFrame`, `Paragraph`, `Run`, `Table`, `Cell`, fills, colors,
  lengths in EMU), restricted to the API surface the script actually uses;
* each recipe function `create_*_pptx` as a pure value: the document it
  constructs plus the observable events it performs (saving one file,
  printing one line);
* the driver `main` as the trace of events it produces, with explicit
  begin/end markers around each recipe invocation so that ordering claims
  about the driver can be stated.

The script reads no input; its only environment dependence is `OUTPUT_DIR`
(derived from the script location), which we model as an explicit
`outputDir` parameter threaded to every save path.
-/

namespace PptxGen

/-- Length in EMU of `t` tenths of an inch.  python-pptx `Inches(x)` is
`x * 914400` EMU; every `Inches(...)` call site in the script uses an exact
multiple of 0.1 inch, so we take the argument in tenths: `Inches(0.5)` is
`inchesTenths 5 = 457200`. -/
def inchesTenths (t : Nat) : Nat := t * 91440

/-- Length in EMU of a font size of `p` points, python-pptx `Pt(p)`
(`p * 12700`); every `Pt(...)` call site in the script uses a whole number
of points. -/
def Pt (p : Nat) : Nat := p * 12700

/-- A 24-bit RGB color, python-pptx `RGBColor(r, g, b)`. -/
structure RGBColor where
  r : Nat
  g : Nat
  b : Nat
deriving DecidableEq, BEq

/-- The auto-shape geometries the script uses (members of `MSO_SHAPE`). -/
inductive ShapeKind where
  | rectangle
  | roundedRectangle
  | oval
  | isoscelesTriangle
  | diamond
  | star5Point
  | rightArrow
  | leftArrow
  | chevron
  | hexagon
  | heart
  | cloud
deriving DecidableEq, BEq

/-- A shape or table-cell fill as the script leaves it.

* `inherited`: the fill is never touched (new shapes and cells inherit).
* `solid c`: `fill.solid()` followed by `fill.fore_color.rgb = c`.
* `gradient angle stops`: `fill.gradient()` installs the library default
  two-stop linear gradient; the script then sets `fill.gradient_angle` and
  overwrites the color of each of the two stops, so `stops` lists the stop
  colors in order. -/
inductive Fill where
  | inherited
  | solid (foreColor : RGBColor)
  | gradient (angle : Nat) (stops : List RGBColor)
deriving DecidableEq, BEq

/-- Font attributes of a run or of a paragraph (`.font` on either); a field
is `none` when the script never assigns it, so it stays inherited. -/
structure Font where
  size : Option Nat := none
  bold : Option Bool := none
  italic : Option Bool := none
  underline : Option Bool := none
  color : Option RGBColor := none
deriving DecidableEq, BEq

/-- One text run: its text plus its own font attributes. -/
structure Run where
  text : String
  font : Font := {}
deriving DecidableEq, BEq

/-- Paragraph alignment; the script only ever assigns `PP_ALIGN.CENTER`. -/
inductive Align where
  | center
deriving DecidableEq, BEq

/-- One paragraph of a text frame.  `p.text = s` replaces the runs with a
single run holding `s`; `p.add_run()` appends a run.  `font` is the
paragraph-level font (python-pptx `paragraph.font`).  `level` is the outline
level, recorded only when assigned.  `buAutoNum` stands for native automatic
list numbering (the `a:buAutoNum` element of the underlying XML): python-pptx
exposes no direct property for it and the script never creates it, so it is
carried only so that the absence of native numbering is expressible. -/
structure Paragraph where
  runs : List Run := []
  font : Font := {}
  alignment : Option Align := none
  level : Option Nat := none
  buAutoNum : Option String := none
deriving DecidableEq, BEq

/-- A text frame; a freshly created frame holds one empty paragraph.
`word_wrap` is recorded only when assigned. -/
structure TextFrame where
  paragraphs : List Paragraph := [{}]
  wordWrap : Option Bool := none
deriving DecidableEq, BEq

/-- Bounding box of a placed element, in EMU: the four positional arguments
of `add_shape` / `add_textbox` / `add_table`. -/
structure Box where
  left : Nat
  top : Nat
  width : Nat
  height : Nat
deriving DecidableEq, BEq

/-- One table cell: its text frame and its fill.  `cell.text = s` replaces
the frame content with one paragraph holding one run. -/
structure Cell where
  text_frame : TextFrame := {}
  fill : Fill := Fill.inherited
deriving DecidableEq, BEq

/-- A table created by `add_table(rows, cols, ...)`: the declared row and
column counts, one optional explicit width per column (`none` when the
script never assigns `columns[i].width`), and the row-major grid of cells. -/
structure Table where
  n_rows : Nat
  n_cols : Nat
  columnWidths : List (Option Nat)
  cells : List (List Cell)
deriving DecidableEq, BEq

/-- A placed element of a slide: an auto shape (`add_shape`), a text box
(`add_textbox`), or the graphic frame holding a table (`add_table`). -/
inductive Shape where
  | autoShape (kind : ShapeKind) (box : Box) (fill : Fill) (text_frame : TextFrame)
  | textBox (box : Box) (text_frame : TextFrame)
  | graphicFrame (box : Box) (table : Table)
deriving DecidableEq, BEq

/-- A slide: its placed elements in insertion order. -/
structure Slide where
  shapes : List Shape
deriving DecidableEq, BEq

/-- A presentation.  The python-pptx default template is 10 by 7.5 inches
(9144000 by 6858000 EMU); two recipes assign exactly these values again. -/
structure Presentation where
  slide_width : Nat := 9144000
  slide_height : Nat := 6858000
  slides : List Slide := []
deriving DecidableEq, BEq

/-- Observable events of the script: creating the output directory
(`os.makedirs(..., exist_ok=True)`), printing one line, saving one document,
and markers for entering/leaving a recipe function call. -/
inductive Event where
  | ensureDir (dir : String)
  | printLine (line : String)
  | save (path : String)
  | beginRecipe (name : String)
  | endRecipe (name : String)
deriving DecidableEq, BEq

/-- Path join, `os.path.join(dir, file)` with a slash separator. -/
def joinPath (dir file : String) : String := dir ++ "/" ++ file

/-- Text frame produced by assigning `shape.text = s`: the frame content is
replaced by one paragraph holding one run with default font. -/
def frameOfText (s : String) : TextFrame :=
  { paragraphs := [{ runs := [{ text := s }] }] }

/-- Document built by `create_basic_shapes_pptx`: one blank-layout slide of
a 10 by 7.5 inch presentation carrying nine auto shapes, each with a solid
fill; the first three also get text via `shape.text`. -/
def basic_shapes_doc : Presentation :=
  { slide_width := inchesTenths 100,
    slide_height := inchesTenths 75,
    slides := [{ shapes := [
      Shape.autoShape ShapeKind.rectangle
        ⟨inchesTenths 5, inchesTenths 5, inchesTenths 20, inchesTenths 10⟩
        (Fill.solid ⟨0x41, 0x69, 0xE1⟩) (frameOfText "Rectangle"),
      Shape.autoShape ShapeKind.roundedRectangle
        ⟨inchesTenths 30, inchesTenths 5, inchesTenths 20, inchesTenths 10⟩
        (Fill.solid ⟨0x32, 0xCD, 0x32⟩) (frameOfText "Rounded Rect"),
      Shape.autoShape ShapeKind.oval
        ⟨inchesTenths 55, inchesTenths 5, inchesTenths 20, inchesTenths 10⟩
        (Fill.solid ⟨0xFF, 0x69, 0xB4⟩) (frameOfText "Ellipse"),
      Shape.autoShape ShapeKind.isoscelesTriangle
        ⟨inchesTenths 5, inchesTenths 20, inchesTenths 20, inchesTenths 15⟩
        (Fill.solid ⟨0xFF, 0xA5, 0x00⟩) {},
      Shape.autoShape ShapeKind.diamond
        ⟨inchesTenths 30, inchesTenths 20, inchesTenths 20, inchesTenths 15⟩
        (Fill.solid ⟨0x94, 0x00, 0xD3⟩) {},
      Shape.autoShape ShapeKind.star5Point
        ⟨inchesTenths 55, inchesTenths 20, inchesTenths 20, inchesTenths 15⟩
        (Fill.solid ⟨0xFF, 0xD7, 0x00⟩) {},
      Shape.autoShape ShapeKind.rightArrow
        ⟨inchesTenths 5, inchesTenths 40, inchesTenths 25, inchesTenths 10⟩
        (Fill.solid ⟨0x00, 0x80, 0x80⟩) {},
      Shape.autoShape ShapeKind.heart
        ⟨inchesTenths 35, inchesTenths 40, inchesTenths 15, inchesTenths 15⟩
        (Fill.solid ⟨0xFF, 0x00, 0x00⟩) {},
      Shape.autoShape ShapeKind.cloud
        ⟨inchesTenths 55, inchesTenths 40, inchesTenths 25, inchesTenths 15⟩
        (Fill.solid ⟨0x87, 0xCE, 0xEB⟩) {}] }] }

/-- The five colored run fragments of the color-sample paragraph of
`create_text_formatting_pptx`. -/
def textFormattingColors : List (String × RGBColor) :=
  [("Red ", ⟨0xFF, 0x00, 0x00⟩),
   ("Green ", ⟨0x00, 0x80, 0x00⟩),
   ("Blue ", ⟨0x00, 0x00, 0xFF⟩),
   ("Orange ", ⟨0xFF, 0xA5, 0x00⟩),
   ("Purple", ⟨0x80, 0x00, 0x80⟩)]

/-- The point sizes of the size-sample paragraph of
`create_text_formatting_pptx`. -/
def textFormattingSizes : List Nat := [12, 18, 24, 36, 48]

/-- The three items of the bullet-list text box of
`create_text_formatting_pptx`. -/
def bulletItems : List String :=
  ["First bullet item", "Second bullet item", "Third bullet item"]

/-- The three items of the simulated numbered-list text box of
`create_text_formatting_pptx`; the numbering is part of the literal text. -/
def numberedItems : List String :=
  ["1. First numbered item", "2. Second numbered item", "3. Third numbered item"]

/-- Document built by `create_text_formatting_pptx`: one blank-layout slide
with six text boxes (title, bold/italic/underline samples, colored runs,
sized runs, bullet list, simulated numbered list). -/
def text_formatting_doc : Presentation :=
  { slides := [{ shapes := [
      Shape.textBox ⟨inchesTenths 5, inchesTenths 3, inchesTenths 90, inchesTenths 8⟩
        { paragraphs := [{
            alignment := some Align.center,
            runs := [{ text := "Text Formatting Test",
                       font := { size := some (Pt 36), bold := some true,
                                 color := some ⟨0x33, 0x33, 0x33⟩ } }] }] },
      Shape.textBox ⟨inchesTenths 5, inchesTenths 12, inchesTenths 40, inchesTenths 5⟩
        { paragraphs := [{ runs := [
            { text := "Bold ", font := { size := some (Pt 18), bold := some true } },
            { text := "Italic ", font := { size := some (Pt 18), italic := some true } },
            { text := "Underline ", font := { size := some (Pt 18), underline := some true } },
            { text := "Strikethrough", font := { size := some (Pt 18) } }] }] },
      Shape.textBox ⟨inchesTenths 5, inchesTenths 18, inchesTenths 80, inchesTenths 5⟩
        { paragraphs := [{ runs := textFormattingColors.map (fun tc =>
            { text := tc.1, font := { size := some (Pt 18), color := some tc.2 } }) }] },
      Shape.textBox ⟨inchesTenths 5, inchesTenths 24, inchesTenths 80, inchesTenths 10⟩
        { paragraphs := [{ runs := textFormattingSizes.map (fun size =>
            { text := toString size ++ "pt ", font := { size := some (Pt size) } }) }] },
      Shape.textBox ⟨inchesTenths 5, inchesTenths 38, inchesTenths 40, inchesTenths 20⟩
        { wordWrap := some true,
          paragraphs := bulletItems.map (fun item =>
            { runs := [{ text := item }],
              level := some 0,
              font := { size := some (Pt 16) } }) },
      Shape.textBox ⟨inchesTenths 50, inchesTenths 38, inchesTenths 40, inchesTenths 20⟩
        { wordWrap := some true,
          paragraphs := numberedItems.map (fun item =>
            { runs := [{ text := item }],
              font := { size := some (Pt 16) } }) }] }] }

/-- Document built by `create_gradients_pptx`: one blank-layout slide with
four gradient-filled shapes, each labeled via `shape.text`. -/
def gradients_doc : Presentation :=
  { slides := [{ shapes := [
      Shape.autoShape ShapeKind.rectangle
        ⟨inchesTenths 5, inchesTenths 5, inchesTenths 30, inchesTenths 20⟩
        (Fill.gradient 0 [⟨0xFF, 0x00, 0x00⟩, ⟨0x00, 0x00, 0xFF⟩])
        (frameOfText "Linear H"),
      Shape.autoShape ShapeKind.rectangle
        ⟨inchesTenths 40, inchesTenths 5, inchesTenths 30, inchesTenths 20⟩
        (Fill.gradient 90 [⟨0x00, 0xFF, 0x00⟩, ⟨0xFF, 0xFF, 0x00⟩])
        (frameOfText "Linear V"),
      Shape.autoShape ShapeKind.rectangle
        ⟨inchesTenths 5, inchesTenths 30, inchesTenths 30, inchesTenths 20⟩
        (Fill.gradient 45 [⟨0x80, 0x00, 0x80⟩, ⟨0xFF, 0xA5, 0x00⟩])
        (frameOfText "Diagonal"),
      Shape.autoShape ShapeKind.roundedRectangle
        ⟨inchesTenths 40, inchesTenths 30, inchesTenths 30, inchesTenths 20⟩
        (Fill.gradient 135 [⟨0x00, 0x80, 0x80⟩, ⟨0xFF, 0x69, 0xB4⟩])
        (frameOfText "Rounded Gradient")] }] }

/-- Document built by `create_images_pptx`: one blank-layout slide with a
single centered placeholder note. -/
def images_doc : Presentation :=
  { slides := [{ shapes := [
      Shape.textBox ⟨inchesTenths 10, inchesTenths 20, inchesTenths 80, inchesTenths 20⟩
        { paragraphs := [{
            runs := [{ text := "Image test - add images manually or use a sample image" }],
            font := { size := some (Pt 24) },
            alignment := some Align.center }] }] }] }

/-- Header cell of the table of `create_tables_pptx`: `cell.text = h`, then
a solid royal-blue fill, then bold white paragraph-level font. -/
def tablesHeaderCell (h : String) : Cell :=
  { text_frame := { paragraphs := [{
      runs := [{ text := h }],
      font := { bold := some true, color := some ⟨0xFF, 0xFF, 0xFF⟩ } }] },
    fill := Fill.solid ⟨0x41, 0x69, 0xE1⟩ }

/-- Cell holding plain text only (`cell.text = s` and nothing else). -/
def plainTextCell (s : String) : Cell :=
  { text_frame := { paragraphs := [{ runs := [{ text := s }] }] } }

/-- The three data rows of the table of `create_tables_pptx`. -/
def tablesData : List (List String) :=
  [["Alice Smith", "Engineering", "Active"],
   ["Bob Johnson", "Marketing", "Active"],
   ["Carol Williams", "Sales", "On Leave"]]

/-- The 4 by 3 table of `create_tables_pptx`: every column width is set to
2.5 inches, the header row is styled, the data rows are plain. -/
def tables_table : Table :=
  { n_rows := 4,
    n_cols := 3,
    columnWidths :=
      [some (inchesTenths 25), some (inchesTenths 25), some (inchesTenths 25)],
    cells :=
      ["Name", "Department", "Status"].map tablesHeaderCell ::
      tablesData.map (fun row => row.map plainTextCell) }

/-- Document built by `create_tables_pptx`: one blank-layout slide with a
centered bold title text box and one 4 by 3 table. -/
def tables_doc : Presentation :=
  { slides := [{ shapes := [
      Shape.textBox ⟨inchesTenths 5, inchesTenths 3, inchesTenths 90, inchesTenths 6⟩
        { paragraphs := [{
            runs := [{ text := "Table Test" }],
            font := { size := some (Pt 28), bold := some true },
            alignment := some Align.center }] },
      Shape.graphicFrame
        ⟨inchesTenths 10, inchesTenths 12, inchesTenths 80, inchesTenths 20⟩
        tables_table] }] }

/-- Document built by `create_multi_slide_pptx`: three blank-layout slides
(title slide, content slide with two shapes, closing slide). -/
def multi_slide_doc : Presentation :=
  { slides := [
      { shapes := [
          Shape.textBox ⟨inchesTenths 10, inchesTenths 25, inchesTenths 80, inchesTenths 15⟩
            { paragraphs := [
                { runs := [{ text := "Multi-Slide Presentation" }],
                  font := { size := some (Pt 44), bold := some true },
                  alignment := some Align.center },
                { runs := [{ text := "Testing slide navigation" }],
                  font := { size := some (Pt 24) },
                  alignment := some Align.center }] }] },
      { shapes := [
          Shape.textBox ⟨inchesTenths 5, inchesTenths 5, inchesTenths 90, inchesTenths 8⟩
            { paragraphs := [{
                runs := [{ text := "Slide 2: Content Slide" }],
                font := { size := some (Pt 32), bold := some true } }] },
          Shape.autoShape ShapeKind.rectangle
            ⟨inchesTenths 10, inchesTenths 20, inchesTenths 30, inchesTenths 20⟩
            (Fill.solid ⟨0x41, 0x69, 0xE1⟩) (frameOfText "Shape 1"),
          Shape.autoShape ShapeKind.oval
            ⟨inchesTenths 50, inchesTenths 20, inchesTenths 30, inchesTenths 20⟩
            (Fill.solid ⟨0x32, 0xCD, 0x32⟩) (frameOfText "Shape 2")] },
      { shapes := [
          Shape.textBox ⟨inchesTenths 5, inchesTenths 5, inchesTenths 90, inchesTenths 8⟩
            { paragraphs := [{
                runs := [{ text := "Slide 3: Final Slide" }],
                font := { size := some (Pt 32), bold := some true } }] },
          Shape.textBox ⟨inchesTenths 10, inchesTenths 20, inchesTenths 80, inchesTenths 30⟩
            { wordWrap := some true,
              paragraphs := [{
                runs := [{ text := "This is the final slide of the presentation. It contains text content to verify multi-slide navigation works correctly." }],
                font := { size := some (Pt 18) } }] }] }] }

/-- The first shape row of `create_comprehensive_pptx`: geometry, solid fill
color and label of each of the five labeled shapes, as in `shapes_data`. -/
def comprehensiveRow1Data : List (ShapeKind × Nat × Nat × Nat × Nat × RGBColor × String) :=
  [(ShapeKind.rectangle, inchesTenths 3, inchesTenths 10, inchesTenths 18, inchesTenths 12,
      ⟨0x41, 0x69, 0xE1⟩, "Rect"),
   (ShapeKind.roundedRectangle, inchesTenths 23, inchesTenths 10, inchesTenths 18, inchesTenths 12,
      ⟨0x32, 0xCD, 0x32⟩, "Round"),
   (ShapeKind.oval, inchesTenths 43, inchesTenths 10, inchesTenths 18, inchesTenths 12,
      ⟨0xFF, 0x69, 0xB4⟩, "Oval"),
   (ShapeKind.diamond, inchesTenths 63, inchesTenths 10, inchesTenths 18, inchesTenths 12,
      ⟨0xFF, 0xA5, 0x00⟩, "Diamond"),
   (ShapeKind.star5Point, inchesTenths 81, inchesTenths 10, inchesTenths 16, inchesTenths 12,
      ⟨0xFF, 0xD7, 0x00⟩, "Star")]

/-- Builds one first-row shape of `create_comprehensive_pptx`: solid fill,
label via `shape.text`, then every paragraph set to 12 pt bold centered. -/
def comprehensiveRow1Shape : ShapeKind × Nat × Nat × Nat × Nat × RGBColor × String → Shape
  | (kind, left, top, width, height, color, text) =>
    Shape.autoShape kind ⟨left, top, width, height⟩ (Fill.solid color)
      { paragraphs := [{
          runs := [{ text := text }],
          font := { size := some (Pt 12), bold := some true },
          alignment := some Align.center }] }

/-- Header cell of the small table of `create_comprehensive_pptx`. -/
def comprehensiveHeaderCell (h : String) : Cell :=
  { text_frame := { paragraphs := [{
      runs := [{ text := h }],
      font := { size := some (Pt 11), bold := some true,
                color := some ⟨0xFF, 0xFF, 0xFF⟩ } }] },
    fill := Fill.solid ⟨0x2C, 0x3E, 0x50⟩ }

/-- Data cell of the small table of `create_comprehensive_pptx`:
`cell.text = s` followed by an 11 pt paragraph-level font size. -/
def comprehensiveDataCell (s : String) : Cell :=
  { text_frame := { paragraphs := [{
      runs := [{ text := s }],
      font := { size := some (Pt 11) } }] } }

/-- The 2 by 3 table of `create_comprehensive_pptx`; no column width is ever
assigned. -/
def comprehensiveTable : Table :=
  { n_rows := 2,
    n_cols := 3,
    columnWidths := List.replicate 3 none,
    cells :=
      [["Column A", "Column B", "Column C"].map comprehensiveHeaderCell,
       ["Value 1", "Value 2", "Value 3"].map comprehensiveDataCell] }

/-- The bullet text box content of `create_comprehensive_pptx`.  The source
file literally contains the bytes C3 A2, E2 82 AC, C2 A2 before the space in
each item, i.e. the three characters U+00E2, U+20AC, U+00A2 (a mojibake
rendering of the bullet glyph), so each paragraph text starts with that
three-character sequence and a space. -/
def comprehensiveBulletFrame : TextFrame :=
  { wordWrap := some true,
    paragraphs := ["First item", "Second item", "Third item"].map (fun bullet =>
      { runs := [{ text := "â€¢ " ++ bullet }],
        font := { size := some (Pt 12) } }) }

/-- Document built by `create_comprehensive_pptx`: one blank-layout slide of
a 10 by 7.5 inch presentation combining a title, five labeled shapes, five
unlabeled shapes, a mixed-run text box, a gradient shape, a 2 by 3 table and
a bullet text box. -/
def comprehensive_doc : Presentation :=
  { slide_width := inchesTenths 100,
    slide_height := inchesTenths 75,
    slides := [{ shapes := (
      Shape.textBox ⟨inchesTenths 5, inchesTenths 2, inchesTenths 90, inchesTenths 7⟩
        { paragraphs := [{
            runs := [{ text := "Comprehensive Feature Test" }],
            font := { size := some (Pt 32), bold := some true,
                      color := some ⟨0x1a, 0x1a, 0x2e⟩ },
            alignment := some Align.center }] } ::
      comprehensiveRow1Data.map comprehensiveRow1Shape ++
      [Shape.autoShape ShapeKind.rightArrow
         ⟨inchesTenths 3, inchesTenths 25, inchesTenths 20, inchesTenths 8⟩
         (Fill.solid ⟨0x00, 0x80, 0x80⟩) {},
       Shape.autoShape ShapeKind.leftArrow
         ⟨inchesTenths 25, inchesTenths 25, inchesTenths 20, inchesTenths 8⟩
         (Fill.solid ⟨0x80, 0x00, 0x80⟩) {},
       Shape.autoShape ShapeKind.chevron
         ⟨inchesTenths 47, inchesTenths 25, inchesTenths 20, inchesTenths 8⟩
         (Fill.solid ⟨0xDC, 0x14, 0x3C⟩) {},
       Shape.autoShape ShapeKind.hexagon
         ⟨inchesTenths 69, inchesTenths 24, inchesTenths 14, inchesTenths 10⟩
         (Fill.solid ⟨0x4B, 0x00, 0x82⟩) {},
       Shape.autoShape ShapeKind.heart
         ⟨inchesTenths 85, inchesTenths 24, inchesTenths 12, inchesTenths 10⟩
         (Fill.solid ⟨0xFF, 0x00, 0x00⟩) {},
       Shape.textBox ⟨inchesTenths 3, inchesTenths 36, inchesTenths 45, inchesTenths 12⟩
         { wordWrap := some true,
           paragraphs := [{ runs := [
             { text := "Bold ", font := { size := some (Pt 14), bold := some true } },
             { text := "Italic ", font := { size := some (Pt 14), italic := some true } },
             { text := "Underline ", font := { size := some (Pt 14), underline := some true } },
             { text := "Color", font := { size := some (Pt 14),
                                          color := some ⟨0xFF, 0x00, 0x00⟩ } }] }] },
       Shape.autoShape ShapeKind.roundedRectangle
         ⟨inchesTenths 50, inchesTenths 36, inchesTenths 45, inchesTenths 12⟩
         (Fill.gradient 45 [⟨0x66, 0x00, 0xFF⟩, ⟨0x00, 0xFF, 0xFF⟩])
         { paragraphs := [{
             runs := [{ text := "Gradient Fill" }],
             font := { size := some (Pt 14), bold := some true,
                       color := some ⟨0xFF, 0xFF, 0xFF⟩ },
             alignment := some Align.center }] },
       Shape.graphicFrame
         ⟨inchesTenths 3, inchesTenths 52, inchesTenths 50, inchesTenths 10⟩
         comprehensiveTable,
       Shape.textBox ⟨inchesTenths 55, inchesTenths 52, inchesTenths 40, inchesTenths 15⟩
         comprehensiveBulletFrame]) }] }

/-- The recipe `create_basic_shapes_pptx`: the document it builds, the file
it saves into the output directory, and the line it prints. -/
def create_basic_shapes_pptx (outputDir : String) : Presentation × List Event :=
  (basic_shapes_doc,
   [Event.save (joinPath outputDir "basic-shapes.pptx"),
    Event.printLine "Created basic-shapes.pptx"])

/-- The recipe `create_text_formatting_pptx`. -/
def create_text_formatting_pptx (outputDir : String) : Presentation × List Event :=
  (text_formatting_doc,
   [Event.save (joinPath outputDir "text-formatting.pptx"),
    Event.printLine "Created text-formatting.pptx"])

/-- The recipe `create_gradients_pptx`. -/
def create_gradients_pptx (outputDir : String) : Presentation × List Event :=
  (gradients_doc,
   [Event.save (joinPath outputDir "gradients.pptx"),
    Event.printLine "Created gradients.pptx"])

/-- The recipe `create_images_pptx`. -/
def create_images_pptx (outputDir : String) : Presentation × List Event :=
  (images_doc,
   [Event.save (joinPath outputDir "images.pptx"),
    Event.printLine "Created images.pptx (placeholder)"])

/-- The recipe `create_tables_pptx`. -/
def create_tables_pptx (outputDir : String) : Presentation × List Event :=
  (tables_doc,
   [Event.save (joinPath outputDir "tables.pptx"),
    Event.printLine "Created tables.pptx"])

/-- The recipe `create_multi_slide_pptx`. -/
def create_multi_slide_pptx (outputDir : String) : Presentation × List Event :=
  (multi_slide_doc,
   [Event.save (joinPath outputDir "multi-slide.pptx"),
    Event.printLine "Created multi-slide.pptx"])

/-- The recipe `create_comprehensive_pptx`. -/
def create_comprehensive_pptx (outputDir : String) : Presentation × List Event :=
  (comprehensive_doc,
   [Event.save (joinPath outputDir "comprehensive.pptx"),
    Event.printLine "Created comprehensive.pptx"])

/-- Event trace of one recipe invocation as seen from the driver: begin and
end markers surrounding the events of the recipe body. -/
def runRecipe (name : String) (body : List Event) : List Event :=
  Event.beginRecipe name :: body ++ [Event.endRecipe name]

/-- The banner of fifty dashes the driver prints twice. -/
def dashes : String := String.mk (List.replicate 50 (Char.ofNat 45))

/-- Event trace of `main`: ensure the output directory exists, print the
opening banner, invoke the seven recipes in source order, print the closing
banner.  `outputDir` stands for `OUTPUT_DIR`, which the script derives from
its own location. -/
def main (outputDir : String) : List Event :=
  Event.ensureDir outputDir ::
  Event.printLine ("Generating test PPTX files in " ++ outputDir ++ "...") ::
  Event.printLine dashes ::
  (runRecipe "create_basic_shapes_pptx" (create_basic_shapes_pptx outputDir).2 ++
   runRecipe "create_text_formatting_pptx" (create_text_formatting_pptx outputDir).2 ++
   runRecipe "create_gradients_pptx" (create_gradients_pptx outputDir).2 ++
   runRecipe "create_tables_pptx" (create_tables_pptx outputDir).2 ++
   runRecipe "create_multi_slide_pptx" (create_multi_slide_pptx outputDir).2 ++
   runRecipe "create_comprehensive_pptx" (create_comprehensive_pptx outputDir).2 ++
   runRecipe "create_images_pptx" (create_images_pptx outputDir).2 ++
   [Event.printLine dashes,
    Event.printLine "Done! Test files created in tests/fixtures/"])

/-- The paths of the save events of a trace, in order. -/
def savedPaths (evs : List Event) : List String :=
  evs.filterMap (fun e => match e with
    | Event.save p => some p
    | _ => none)

/-- The names of the recipe invocations of a trace, in order. -/
def invokedRecipes (evs : List Event) : List String :=
  evs.filterMap (fun e => match e with
    | Event.beginRecipe n => some n
    | _ => none)

/-- True when somewhere in the trace a printed line is immediately followed
by the start of the invocation of recipe `name`. -/
def printImmediatelyBefore : List Event → String → Bool
  | e1 :: e2 :: rest, name =>
    (match e1, e2 with
     | Event.printLine _, Event.beginRecipe n => n == name
     | _, _ => false) || printImmediatelyBefore (e2 :: rest) name
  | _, _ => false

/-- True when somewhere in the trace the end of the invocation of recipe
`name` is immediately followed by a printed line. -/
def printImmediatelyAfter : List Event → String → Bool
  | e1 :: e2 :: rest, name =>
    (match e1, e2 with
     | Event.endRecipe n, Event.printLine _ => n == name
     | _, _ => false) || printImmediatelyAfter (e2 :: rest) name
  | _, _ => false

/-- The events of the invocation of recipe `name`: what lies strictly
between its begin and end markers. -/
def innerEvents (evs : List Event) (name : String) : List Event :=
  ((evs.dropWhile (fun e => !(e == Event.beginRecipe name))).drop 1).takeWhile
    (fun e => !(e == Event.endRecipe name))

/-- Concatenated text of the runs of a paragraph. -/
def Paragraph.text (p : Paragraph) : String :=
  String.join (p.runs.map Run.text)

/-- Concatenated text of all paragraphs of a frame. -/
def TextFrame.rawText (tf : TextFrame) : String :=
  String.join (tf.paragraphs.map Paragraph.text)

/-- The text frame of a shape, when it has one (tables do not). -/
def Shape.textFrameOf : Shape → Option TextFrame
  | Shape.autoShape _ _ _ tf => some tf
  | Shape.textBox _ tf => some tf
  | Shape.graphicFrame _ _ => none

/-- True when the shape carries visible text. -/
def Shape.hasLabel (s : Shape) : Bool :=
  match s.textFrameOf with
  | some tf => tf.rawText != ""
  | none => false

/-- True for a text box (`add_textbox`). -/
def Shape.isTextBox : Shape → Bool
  | Shape.textBox _ _ => true
  | _ => false

/-- True for the graphic frame of a table (`add_table`). -/
def Shape.isTable : Shape → Bool
  | Shape.graphicFrame _ _ => true
  | _ => false

/-- The tables placed on a slide, in order. -/
def slideTables (s : Slide) : List Table :=
  s.shapes.filterMap (fun shp => match shp with
    | Shape.graphicFrame _ t => some t
    | _ => none)

/-- The auto-shape kinds placed on a slide, in order. -/
def slideKinds (s : Slide) : List ShapeKind :=
  s.shapes.filterMap (fun shp => match shp with
    | Shape.autoShape k _ _ _ => some k
    | _ => none)

/-- The top coordinates of the auto shapes of a slide, in order. -/
def slideShapeTops (s : Slide) : List Nat :=
  s.shapes.filterMap (fun shp => match shp with
    | Shape.autoShape _ b _ _ => some b.top
    | _ => none)

/-- The solid fill colors of the auto shapes of a slide, in order; shapes
without a solid fill contribute nothing. -/
def slideSolidColors (s : Slide) : List RGBColor :=
  s.shapes.filterMap (fun shp => match shp with
    | Shape.autoShape _ _ (Fill.solid c) _ => some c
    | _ => none)

/-- The gradient angles of the auto shapes of a slide, in order; shapes
without a gradient fill contribute nothing. -/
def slideGradientAngles (s : Slide) : List Nat :=
  s.shapes.filterMap (fun shp => match shp with
    | Shape.autoShape _ _ (Fill.gradient a _) _ => some a
    | _ => none)

/-- The gradient stop-color lists of the auto shapes of a slide, in order. -/
def slideGradientStops (s : Slide) : List (List RGBColor) :=
  s.shapes.filterMap (fun shp => match shp with
    | Shape.autoShape _ _ (Fill.gradient _ st) _ => some st
    | _ => none)

/-- True when the shape is an auto shape whose kind is rectangle or rounded
rectangle. -/
def Shape.isRectOrRounded : Shape → Bool
  | Shape.autoShape ShapeKind.rectangle _ _ _ => true
  | Shape.autoShape ShapeKind.roundedRectangle _ _ _ => true
  | _ => false

/-- True when the shape is an auto shape with a solid fill. -/
def Shape.hasSolidFill : Shape → Bool
  | Shape.autoShape _ _ (Fill.solid _) _ => true
  | _ => false

/-- True when the shape is an auto shape with a gradient fill of exactly two
stops. -/
def Shape.hasTwoStopGradientFill : Shape → Bool
  | Shape.autoShape _ _ (Fill.gradient _ st) _ => st.length == 2
  | _ => false

/-- True when the shape is a text box one of whose paragraphs has more than
one run. -/
def Shape.isMultiRunTextBox : Shape → Bool
  | Shape.textBox _ tf => tf.paragraphs.any (fun p => 1 < p.runs.length)
  | _ => false

/-- The single slide of a one-slide document (the empty slide otherwise). -/
def soleSlide (doc : Presentation) : Slide :=
  doc.slides.headD { shapes := [] }

/-- The text frame of the shape at position `i` of a slide (the empty frame
when that shape is not a text box or an auto shape). -/
def frameAt (s : Slide) (i : Nat) : TextFrame :=
  match s.shapes.get? i with
  | some shp => (shp.textFrameOf).getD {}
  | none => {}

/-- True for a solid fill. -/
def Fill.isSolid : Fill → Bool
  | Fill.solid _ => true
  | _ => false

/-- The first table of a slide (a degenerate empty table when none). -/
def theTable (s : Slide) : Table :=
  (slideTables s).headD { n_rows := 0, n_cols := 0, columnWidths := [], cells := [] }

/-- True when the cell has a solid fill and every one of its paragraphs has
bold white paragraph-level font. -/
def isHeaderStyledCell (c : Cell) : Bool :=
  c.fill.isSolid && c.text_frame.paragraphs.all (fun p =>
    p.font.bold == some true && p.font.color == some (⟨0xFF, 0xFF, 0xFF⟩ : RGBColor))

/-- True when the cell is completely unstyled: inherited fill, default
paragraph font, no alignment, default run fonts. -/
def isPlainCell (c : Cell) : Bool :=
  c.fill == Fill.inherited && c.text_frame.paragraphs.all (fun p =>
    p.font == ({} : Font) && p.alignment == (none : Option Align) &&
    p.runs.all (fun r => r.font == ({} : Font)))

/-- The bullet-list text box frame of the text-formatting document (its
fifth shape). -/
def bulletListFrame : TextFrame := frameAt (soleSlide text_formatting_doc) 4

/-- The simulated numbered-list text box frame of the text-formatting
document (its sixth shape). -/
def numberedListFrame : TextFrame := frameAt (soleSlide text_formatting_doc) 5

/-- The four characters that begin each comprehensive bullet paragraph: the
three-character mojibake rendering of the bullet glyph (U+00E2, U+20AC,
U+00A2) followed by a space. -/
def mojibakeBullet : String := "â€¢ "

/-- C1: running the driver first guarantees the output directory exists
(the `ensureDir` event, `os.makedirs` with `exist_ok=True`, comes first) and
then invokes each of the seven recipe functions exactly once, writing
exactly seven files with the fixed names basic-shapes, text-formatting,
gradients, tables, multi-slide, comprehensive, images into that single
output directory, in that order. -/
theorem main_ensures_dir_then_writes_seven (outputDir : String) :
    (main outputDir).head? = some (Event.ensureDir outputDir) ∧
    savedPaths (main outputDir) =
      [joinPath outputDir "basic-shapes.pptx",
       joinPath outputDir "text-formatting.pptx",
       joinPath outputDir "gradients.pptx",
       joinPath outputDir "tables.pptx",
       joinPath outputDir "multi-slide.pptx",
       joinPath outputDir "comprehensive.pptx",
       joinPath outputDir "images.pptx"] ∧
    invokedRecipes (main outputDir) =
      ["create_basic_shapes_pptx", "create_text_formatting_pptx",
       "create_gradients_pptx", "create_tables_pptx",
       "create_multi_slide_pptx", "create_comprehensive_pptx",
       "create_images_pptx"] ∧
    (invokedRecipes (main outputDir)).Nodup := by
  refine ⟨rfl, rfl, rfl, ?_⟩
  have h : invokedRecipes (main outputDir) =
      ["create_basic_shapes_pptx", "create_text_formatting_pptx",
       "create_gradients_pptx", "create_tables_pptx",
       "create_multi_slide_pptx", "create_comprehensive_pptx",
       "create_images_pptx"] := rfl
  rw [h]
  decide

/-- C1, witnessed at a concrete output directory. -/
theorem main_ensures_dir_then_writes_seven_witness :
    (main "fixtures").head? = some (Event.ensureDir "fixtures") :=
  (main_ensures_dir_then_writes_seven "fixtures").1

/-- C2 counterexample: the claim that the comprehensive slide has at least
two text boxes containing a paragraph with more than one run is false; only
the mixed-formatting text box is multi-run (the title and bullet boxes hold
single-run paragraphs), so the stated conjunction fails. -/
theorem comprehensive_two_multirun_textboxes_false :
    ¬ (comprehensive_doc.slides.length = 1 ∧
       10 ≤ (soleSlide comprehensive_doc).shapes.length ∧
       (slideTables (soleSlide comprehensive_doc)).map
         (fun t => (t.n_rows, t.n_cols)) = [(2, 3)] ∧
       2 ≤ (soleSlide comprehensive_doc).shapes.countP Shape.isMultiRunTextBox) := by
  intro h
  exact absurd h.2.2.2 (by decide)

/-- C2 amended: the comprehensive document has exactly 1 slide with at least
10 distinct shapes and exactly one 2 by 3 table, but exactly one (not at
least two) text box containing a paragraph with more than one run. -/
theorem comprehensive_structure :
    comprehensive_doc.slides.length = 1 ∧
    (soleSlide comprehensive_doc).shapes.Nodup ∧
    10 ≤ (soleSlide comprehensive_doc).shapes.length ∧
    (slideTables (soleSlide comprehensive_doc)).map
      (fun t => (t.n_rows, t.n_cols)) = [(2, 3)] ∧
    (soleSlide comprehensive_doc).shapes.countP Shape.isMultiRunTextBox = 1 := by
  decide

/-- C3 counterexample: it is not the case that every recipe invocation has a
printed line immediately before it and immediately after it; for example the
second invocation is immediately preceded by the end marker of the first,
and most invocations are immediately followed by the next begin marker. -/
theorem progress_line_before_each_recipe_false :
    ¬ ∀ name ∈ invokedRecipes (main "out"),
        printImmediatelyBefore (main "out") name = true ∧
        printImmediatelyAfter (main "out") name = true := by
  decide

/-- C3 amended: every recipe invocation emits exactly one progress line,
as its final action after saving its file (the events inside each
invocation are one save followed by one print); the driver itself prints no
per-recipe line, so only the first recipe has a printed line immediately
before its invocation (the opening banner) and only the last has one
immediately after (the closing banner). -/
theorem progress_line_once_per_recipe (outputDir : String) :
    ∀ name ∈ invokedRecipes (main outputDir),
      (∃ p s, innerEvents (main outputDir) name =
        [Event.save p, Event.printLine s]) ∧
      printImmediatelyBefore (main outputDir) name =
        (name == "create_basic_shapes_pptx") ∧
      printImmediatelyAfter (main outputDir) name =
        (name == "create_images_pptx") := by
  intro name h
  have hl : invokedRecipes (main outputDir) =
      ["create_basic_shapes_pptx", "create_text_formatting_pptx",
       "create_gradients_pptx", "create_tables_pptx",
       "create_multi_slide_pptx", "create_comprehensive_pptx",
       "create_images_pptx"] := rfl
  rw [hl] at h
  fin_cases h <;> exact ⟨⟨_, _, rfl⟩, rfl, rfl⟩

/-- C3 amended, witnessed at a concrete directory and recipe. -/
theorem progress_line_once_per_recipe_witness :
    (∃ p s, innerEvents (main "out") "create_tables_pptx" =
      [Event.save p, Event.printLine s]) ∧
    printImmediatelyBefore (main "out") "create_tables_pptx" =
      ("create_tables_pptx" == "create_basic_shapes_pptx") ∧
    printImmediatelyAfter (main "out") "create_tables_pptx" =
      ("create_tables_pptx" == "create_images_pptx") :=
  progress_line_once_per_recipe "out" "create_tables_pptx" (by decide)

/-- C4: the gradients document contains exactly four shapes, all rectangles
or rounded rectangles, each with a two-stop gradient fill (not solid) and a
text label; the four gradient angles are exactly the distinct values 0, 90,
45, 135 and the four stop-color pairs are pairwise distinct. -/
theorem gradients_structure :
    gradients_doc.slides.length = 1 ∧
    (soleSlide gradients_doc).shapes.length = 4 ∧
    (soleSlide gradients_doc).shapes.all (fun s =>
      s.isRectOrRounded && s.hasTwoStopGradientFill &&
      !(s.hasSolidFill) && s.hasLabel) = true ∧
    slideGradientAngles (soleSlide gradients_doc) = [0, 90, 45, 135] ∧
    (slideGradientAngles (soleSlide gradients_doc)).Nodup ∧
    (slideGradientStops (soleSlide gradients_doc)).Nodup := by
  decide

/-- C5: the tables document has one slide with one title text box (reading
"Table Test") and exactly one table of 4 rows and 3 columns whose header
row cells all have a solid fill and bold white text, whose three data rows
are plain unstyled text, and all three of whose column widths are set
explicitly (each to 2.5 inches). -/
theorem tables_structure :
    tables_doc.slides.length = 1 ∧
    (soleSlide tables_doc).shapes.countP Shape.isTextBox = 1 ∧
    (frameAt (soleSlide tables_doc) 0).rawText = "Table Test" ∧
    (soleSlide tables_doc).shapes.countP Shape.isTable = 1 ∧
    (theTable (soleSlide tables_doc)).n_rows = 4 ∧
    (theTable (soleSlide tables_doc)).n_cols = 3 ∧
    (theTable (soleSlide tables_doc)).cells.map List.length = [3, 3, 3, 3] ∧
    ((theTable (soleSlide tables_doc)).cells.headD []).all isHeaderStyledCell = true ∧
    ((theTable (soleSlide tables_doc)).cells.drop 1).all
      (fun row => row.all isPlainCell) = true ∧
    (theTable (soleSlide tables_doc)).columnWidths =
      List.replicate 3 (some (inchesTenths 25)) := by
  decide

/-- C6: the basic-shapes document has one slide with exactly nine auto
shapes of the kinds rectangle, rounded rectangle, ellipse (oval), triangle,
diamond, star, right-arrow, heart, cloud, placed on three distinct rows
(three distinct top coordinates); all nine have solid fills of pairwise
distinct colors and exactly three of them carry a text label. -/
theorem basic_shapes_structure :
    basic_shapes_doc.slides.length = 1 ∧
    (soleSlide basic_shapes_doc).shapes.length = 9 ∧
    slideKinds (soleSlide basic_shapes_doc) =
      [ShapeKind.rectangle, ShapeKind.roundedRectangle, ShapeKind.oval,
       ShapeKind.isoscelesTriangle, ShapeKind.diamond, ShapeKind.star5Point,
       ShapeKind.rightArrow, ShapeKind.heart, ShapeKind.cloud] ∧
    (slideShapeTops (soleSlide basic_shapes_doc)).dedup.length = 3 ∧
    (slideSolidColors (soleSlide basic_shapes_doc)).length = 9 ∧
    (slideSolidColors (soleSlide basic_shapes_doc)).Nodup ∧
    (soleSlide basic_shapes_doc).shapes.countP Shape.hasLabel = 3 := by
  decide

/-- C7: the numbered list of the text-formatting document is exactly three
paragraphs whose texts literally begin with the characters of the strings
numbered one to three followed by a dot and a space, and no native
auto-numbering is applied to any of them. -/
theorem numbered_list_literal_text :
    numberedListFrame.paragraphs.length = 3 ∧
    numberedListFrame.paragraphs.map Paragraph.text =
      ["1. First numbered item", "2. Second numbered item",
       "3. Third numbered item"] ∧
    numberedListFrame.paragraphs.map (fun p => p.text.data.take 3) =
      ["1. ".data, "2. ".data, "3. ".data] ∧
    numberedListFrame.paragraphs.all
      (fun p => p.buAutoNum == (none : Option String)) = true := by
  decide

/-- C8: every recipe is deterministic; the document tree each recipe
constructs does not depend on the output directory, the only environment
the script reads, so any two invocations build identical documents. -/
theorem recipes_deterministic (d₁ d₂ : String) :
    (create_basic_shapes_pptx d₁).1 = (create_basic_shapes_pptx d₂).1 ∧
    (create_text_formatting_pptx d₁).1 = (create_text_formatting_pptx d₂).1 ∧
    (create_gradients_pptx d₁).1 = (create_gradients_pptx d₂).1 ∧
    (create_tables_pptx d₁).1 = (create_tables_pptx d₂).1 ∧
    (create_multi_slide_pptx d₁).1 = (create_multi_slide_pptx d₂).1 ∧
    (create_comprehensive_pptx d₁).1 = (create_comprehensive_pptx d₂).1 ∧
    (create_images_pptx d₁).1 = (create_images_pptx d₂).1 :=
  ⟨rfl, rfl, rfl, rfl, rfl, rfl, rfl⟩

/-- C8, witnessed at two concrete output directories. -/
theorem recipes_deterministic_witness :
    (create_basic_shapes_pptx "a").1 = (create_basic_shapes_pptx "b").1 :=
  (recipes_deterministic "a" "b").1

/-- C9: the three bullet-list paragraphs of the text-formatting document
carry no bullet glyph at all; their texts are exactly the three item
strings, with only the outline level and a 16 pt font size set (no
alignment, no run-level styling, no native numbering), unlike the
comprehensive document whose bullet paragraphs start with the
four-character literal glyph sequence. -/
theorem bullet_list_no_glyph :
    bulletListFrame.wordWrap = some true ∧
    bulletListFrame.paragraphs.map Paragraph.text =
      ["First bullet item", "Second bullet item", "Third bullet item"] ∧
    bulletListFrame.paragraphs.all (fun p =>
      p.level == some 0 && p.font == ({ size := some (Pt 16) } : Font) &&
      p.alignment == (none : Option Align) &&
      p.buAutoNum == (none : Option String) &&
      p.runs.all (fun r => r.font == ({} : Font))) = true ∧
    comprehensiveBulletFrame.paragraphs.map (fun p => p.text.data.take 4) =
      [mojibakeBullet.data, mojibakeBullet.data, mojibakeBullet.data] := by
  decide

/-- C10: each of the three bullet paragraphs of the comprehensive document
begins with the exact literal sequence of U+00E2, U+20AC, U+00A2 (the
three-character mojibake of the bullet glyph) and a space, followed by the
item text; the first character is U+00E2, not the bullet character
U+2022. -/
theorem comprehensive_bullet_mojibake :
    comprehensiveBulletFrame.paragraphs.map Paragraph.text =
      [mojibakeBullet ++ "First item", mojibakeBullet ++ "Second item",
       mojibakeBullet ++ "Third item"] ∧
    mojibakeBullet.data = ['â', '€', '¢', ' '] ∧
    comprehensiveBulletFrame.paragraphs.map (fun p => p.text.data.head?) =
      [some 'â', some 'â', some 'â'] ∧
    ('â' : Char) ≠ '•' := by
  decide

end PptxGen
